import Mathlib

/-!
Verification of the go-uvc control-plane layer (`device.go`) against its
natural-language specification.

The Go source is shallowly embedded: the native libuvc structures that
`device.go` reads through cgo pointers are modelled as Lean structures, a
native pointer field is modelled as an `Option` of the pointed-to value
(`none` models a nil pointer), and a native singly-linked list (`next`
chains ending in null) is modelled as a Lean `List`.  Each Go method
becomes a pure Lean function; calls into the native libuvc library are
made explicit in two ways: their observable results are passed in as
parameters (oracles), and the fact that a native call was issued at all is
recorded in a returned `List NativeCall` log, so that "performs no native
side effect" is a statement about that log.
-/

namespace UVC

/-- Native `uvc_frame_desc_t` node, flattened from the C struct: all scalar
fields `device.go` reads, plus the zero-terminated `intervals` array (modelled
as the list of its entries before the terminator). -/
structure NativeFrameDesc where
  bDescriptorSubtype : Nat
  bFrameIndex : Nat
  bmCapabilities : Nat
  wWidth : Nat
  wHeight : Nat
  dwMinBitRate : Nat
  dwMaxBitRate : Nat
  dwMaxVideoFrameBufferSize : Nat
  dwDefaultFrameInterval : Nat
  dwMinFrameInterval : Nat
  dwMaxFrameInterval : Nat
  dwFrameIntervalStep : Nat
  bFrameIntervalType : Nat
  dwBytesPerLine : Nat
  intervals : List Nat
  deriving DecidableEq, Repr

/-- Native `uvc_format_desc_t` node.  `packedByte` is the first byte of the
anonymous union (`anon1[0]` in the cgo view): the UVC descriptor byte that is
`bBitsPerPixel` for uncompressed formats and `bmFlags` for MJPEG formats.
`frame_descs` is the native child list of frame descriptors. -/
structure NativeFormatDesc where
  bDescriptorSubtype : Nat
  bFormatIndex : Nat
  bNumFrameDescriptors : Nat
  packedByte : Nat
  bDefaultFrameIndex : Nat
  bAspectRatioX : Nat
  bAspectRatioY : Nat
  bmInterlaceFlags : Nat
  bCopyProtect : Nat
  bVariableSize : Nat
  frame_descs : List NativeFrameDesc
  deriving DecidableEq, Repr

/-- Native `uvc_streaming_interface_t` node with its child list of format
descriptors. -/
structure NativeStreamInterface where
  bInterfaceNumber : Nat
  bEndpointAddress : Nat
  bTerminalLink : Nat
  format_descs : List NativeFormatDesc
  deriving DecidableEq, Repr

/-- Native `uvc_control_interface_t` (held by value inside the handle's
`info`). -/
structure NativeControlInterface where
  bcdUVC : Nat
  bInterfaceNumber : Nat
  bEndpointAddress : Nat
  dwClockFrequency : Nat
  deriving DecidableEq, Repr

/-- The `info` block of a native device handle: the single control interface
and the linked list of streaming interfaces. -/
structure NativeDeviceInfo where
  ctrl_if : NativeControlInterface
  stream_ifs : List NativeStreamInterface
  deriving DecidableEq, Repr

/-- Native `uvc_device_handle_t`.  `streamsPresent` models whether the
handle's `streams` pointer is non-nil (read by `IsIdle`). -/
structure NativeHandle where
  info : NativeDeviceInfo
  streamsPresent : Bool
  deriving DecidableEq, Repr

/-- The Go `Device` struct.  `devExists` models whether the `dev`
(`*C.uvc_device_t`) native device reference is non-nil; `handle` models the
`handle` (`*C.uvc_device_handle_t`) field, `none` for nil.  The `mu`
reader-writer lock is not part of the data state; its acquisition pattern is
modelled separately by the event traces below. -/
structure Device where
  devExists : Bool
  handle : Option NativeHandle
  deriving DecidableEq, Repr

/-- Log entry for a call into native libuvc issued by a method of the Go
layer.  `close absentHandle` records an invocation of `uvc_close`, noting
whether the handle argument was nil. -/
inductive NativeCall where
  | openDev
  | setAEMode (mode : Nat)
  | setAEPriority (priority : Nat)
  | setExposureRel (exposure : Int)
  | setBrightness (brightness : Int)
  | getStreamCtrl (format width height fps : Int)
  | refDevice
  | unrefDevice
  | close (absentHandle : Bool)
  deriving DecidableEq, Repr

/-- Modelled from the spec: the error kinds of the repository's
ErrorTranslator (`newError`/`ErrorType` live in a source file of this
repository that is not under src/; only `device.go` calls them).  §4.4: a
total, deterministic mapping from a native status code to one kind of
`Success, IOError, InvalidParam, AccessDenied, NoMem, NoDevice, NotSupported,
Busy, Timeout, Interrupted, Pipe, Other`, unknown codes mapping to `Other`. -/
inductive ErrKind where
  | ioError
  | invalidParam
  | accessDenied
  | noMem
  | noDevice
  | notSupported
  | busy
  | timeout
  | interrupted
  | pipe
  | other
  deriving DecidableEq, Repr

/-- The errors `device.go` can return: the two guard errors declared at the
top of the file, or a translated operational error. -/
inductive UVCError where
  | deviceClosed
  | deviceNotFound
  | translated (kind : ErrKind)
  deriving DecidableEq, Repr

/-- Modelled from the spec: the code-to-kind table of the ErrorTranslator for
nonzero native status codes (§4.4).  The spec fixes only that the mapping is
total and deterministic with unknown codes going to `Other`; the concrete
nonzero rows follow the standard libuvc status codes.  No claim depends on
which nonzero kind a given nonzero code maps to. -/
def translateCode (r : Int) : ErrKind :=
  if r = -1 then .ioError
  else if r = -2 then .invalidParam
  else if r = -3 then .accessDenied
  else if r = -11 then .noMem
  else if r = -4 then .noDevice
  else if r = -12 then .notSupported
  else if r = -6 then .busy
  else if r = -7 then .timeout
  else if r = -10 then .interrupted
  else if r = -9 then .pipe
  else .other

/-- Modelled from the spec: `newError`, the translation applied to every
native result in `device.go`.  Status code `0` is `Success` and yields no
error (the Go function returns nil); every nonzero code yields the translated
operational error. -/
def newError (r : Int) : Option UVCError :=
  if r = 0 then none else some (.translated (translateCode r))

/-- Outcome of the native `uvc_open` call, an external libuvc function: on
success it returns status `0` and writes the new handle through the
out-parameter; on failure it returns the nonzero status and leaves the
out-parameter untouched. -/
inductive NativeOpenResult where
  | ok (h : NativeHandle)
  | fail (code : Int)
  deriving DecidableEq, Repr

/-- `Device.Open` from device.go: under the write lock, if `handle != nil`
return nil at once (no native call); otherwise call `uvc_open` and translate
its result.  Returns the updated device, the returned error, and the log of
native calls issued. -/
def Device.Open (dev : Device) (native : NativeOpenResult) :
    Device × Option UVCError × List NativeCall :=
  match dev.handle with
  | some _ => (dev, none, [])
  | none =>
    match native with
    | .ok h => ({ dev with handle := some h }, none, [.openDev])
    | .fail code => (dev, newError code, [.openDev])

/-- `Device.SetAEMode`: under the read lock, return `ErrDeviceClosed` if the
handle is nil, else call `uvc_set_ae_mode` and translate its status
(`nativeResult`). -/
def Device.SetAEMode (dev : Device) (mode : Nat) (nativeResult : Int) :
    Option UVCError × List NativeCall :=
  match dev.handle with
  | none => (some .deviceClosed, [])
  | some _ => (newError nativeResult, [.setAEMode mode])

/-- `Device.SetAEPriority`: same guard, then `uvc_set_ae_priority`. -/
def Device.SetAEPriority (dev : Device) (priority : Nat) (nativeResult : Int) :
    Option UVCError × List NativeCall :=
  match dev.handle with
  | none => (some .deviceClosed, [])
  | some _ => (newError nativeResult, [.setAEPriority priority])

/-- `Device.SetExposureRelative`: same guard, then `uvc_set_exposure_rel`. -/
def Device.SetExposureRelative (dev : Device) (exposure : Int) (nativeResult : Int) :
    Option UVCError × List NativeCall :=
  match dev.handle with
  | none => (some .deviceClosed, [])
  | some _ => (newError nativeResult, [.setExposureRel exposure])

/-- `Device.SetBrightness`: same guard, then `uvc_set_brightness`. -/
def Device.SetBrightness (dev : Device) (brightness : Int) (nativeResult : Int) :
    Option UVCError × List NativeCall :=
  match dev.handle with
  | none => (some .deviceClosed, [])
  | some _ => (newError nativeResult, [.setBrightness brightness])

/-- The Go `ControlInterface` value: the native control-interface struct is
embedded by value (field `itf`), alongside the copied scalar fields. -/
structure ControlInterface where
  itf : NativeControlInterface
  BcdUVC : Nat
  Number : Nat
  EndpointAddress : Nat
  ClockFrequency : Nat
  deriving DecidableEq, Repr

/-- `Device.ControlInterface`: under the read lock, nil if the handle is nil,
else a value built from `handle.info.ctrl_if`. -/
def Device.ControlInterface (dev : Device) : Option ControlInterface :=
  match dev.handle with
  | none => none
  | some h =>
    some { itf := h.info.ctrl_if
           BcdUVC := h.info.ctrl_if.bcdUVC
           Number := h.info.ctrl_if.bInterfaceNumber
           EndpointAddress := h.info.ctrl_if.bEndpointAddress
           ClockFrequency := h.info.ctrl_if.dwClockFrequency }

/-- The Go `StreamInterface` value.  Field `itf` is the retained
`*C.uvc_streaming_interface_t`: a borrowed native pointer, modelled as the
pointed-to native node (`none` models nil). -/
structure StreamInterface where
  itf : Option NativeStreamInterface
  Number : Nat
  EndpointAddress : Nat
  TerminalLink : Nat
  deriving DecidableEq, Repr

/-- `Device.StreamInterfaces`: under the read lock, the empty list if the
handle is nil, else one `StreamInterface` per node of the native
`stream_ifs` linked list, in list order, each keeping the borrowed node
pointer in its `itf` field. -/
def Device.StreamInterfaces (dev : Device) : List StreamInterface :=
  match dev.handle with
  | none => []
  | some h =>
    h.info.stream_ifs.map fun itf =>
      { itf := some itf
        Number := itf.bInterfaceNumber
        EndpointAddress := itf.bEndpointAddress
        TerminalLink := itf.bTerminalLink }

/-- The Go `FormatDescriptor` value.  Field `desc` is the retained
`*C.uvc_format_desc_t` borrowed native pointer.  Both `BitsPerPixel` and
`Flags` are copies of the packed union byte. -/
structure FormatDescriptor where
  desc : Option NativeFormatDesc
  Subtype : Nat
  FormatIndex : Nat
  NumFrameDescriptors : Nat
  BitsPerPixel : Nat
  Flags : Nat
  DefaultFrameIndex : Nat
  AspectRatioX : Nat
  AspectRatioY : Nat
  InterlaceFlags : Nat
  CopyProtect : Nat
  VariableSize : Nat
  deriving DecidableEq, Repr

/-- `StreamInterface.FormatDescriptors` from device.go: no lock is taken; if
the retained `itf` pointer is nil return the empty list, else walk the native
`format_descs` list; both `BitsPerPixel` and `Flags` are read from the same
packed byte `anon1[0]`. -/
def StreamInterface.FormatDescriptors (i : StreamInterface) : List FormatDescriptor :=
  match i.itf with
  | none => []
  | some itf =>
    itf.format_descs.map fun d =>
      { desc := some d
        Subtype := d.bDescriptorSubtype
        FormatIndex := d.bFormatIndex
        NumFrameDescriptors := d.bNumFrameDescriptors
        BitsPerPixel := d.packedByte
        Flags := d.packedByte
        DefaultFrameIndex := d.bDefaultFrameIndex
        AspectRatioX := d.bAspectRatioX
        AspectRatioY := d.bAspectRatioY
        InterlaceFlags := d.bmInterlaceFlags
        CopyProtect := d.bCopyProtect
        VariableSize := d.bVariableSize }

/-- The Go `FrameDescriptor` value.  Field `desc` is the retained
`*C.uvc_frame_desc_t` borrowed native pointer. -/
structure FrameDescriptor where
  desc : Option NativeFrameDesc
  Subtype : Nat
  FrameIndex : Nat
  Capabilities : Nat
  Width : Nat
  Height : Nat
  MinBitRate : Nat
  MaxBitRate : Nat
  MaxVideoFrameBufferSize : Nat
  DefaultFrameInterval : Nat
  MinFrameInterval : Nat
  MaxFrameInterval : Nat
  FrameIntervalStep : Nat
  FrameIntervalType : Nat
  BytesPerLine : Nat
  Intervals : List Nat
  deriving DecidableEq, Repr

/-- `FormatDescriptor.FrameDescriptors` from device.go: no lock is taken; if
the retained `desc` pointer is nil return the empty list, else walk the
native `frame_descs` list copying the scalar fields.  The `Intervals` field
is never assigned (the line `Intervals: []uint32` is commented out in the
source), so it stays the Go zero value — the empty slice. -/
def FormatDescriptor.FrameDescriptors (d : FormatDescriptor) : List FrameDescriptor :=
  match d.desc with
  | none => []
  | some fd =>
    fd.frame_descs.map fun f =>
      { desc := some f
        Subtype := f.bDescriptorSubtype
        FrameIndex := f.bFrameIndex
        Capabilities := f.bmCapabilities
        Width := f.wWidth
        Height := f.wHeight
        MinBitRate := f.dwMinBitRate
        MaxBitRate := f.dwMaxBitRate
        MaxVideoFrameBufferSize := f.dwMaxVideoFrameBufferSize
        DefaultFrameInterval := f.dwDefaultFrameInterval
        MinFrameInterval := f.dwMinFrameInterval
        MaxFrameInterval := f.dwMaxFrameInterval
        FrameIntervalStep := f.dwFrameIntervalStep
        FrameIntervalType := f.bFrameIntervalType
        BytesPerLine := f.dwBytesPerLine
        Intervals := [] }

/-- The negotiated `uvc_stream_ctrl_t` block is opaque to device.go; modelled
as an abstract payload. -/
structure StreamCtrl where
  payload : Nat
  deriving DecidableEq, Repr

/-- The Go `Stream` value returned by `GetStream`: it keeps the raw device
handle pointer (`devh`, modelled as the pointed-to handle) and the negotiated
control block.  The struct has exactly these two fields; in particular it
carries no generation token. -/
structure Stream where
  devh : NativeHandle
  ctrl : StreamCtrl
  deriving DecidableEq, Repr

/-- `Device.GetStream`: under the read lock, return `ErrDeviceClosed` if the
handle is nil; otherwise call `uvc_get_stream_ctrl_format_size`, whose
external outcome is the status `code` and the control block `ctrl` written
through the out-parameter; on nonzero status return the translated error and
no stream, on zero status return a `Stream` holding the raw handle pointer
and the negotiated block. -/
def Device.GetStream (dev : Device) (format width height fps : Int)
    (code : Int) (ctrl : StreamCtrl) :
    Option Stream × Option UVCError × List NativeCall :=
  match dev.handle with
  | none => (none, some .deviceClosed, [])
  | some hdl =>
    match newError code with
    | some e => (none, some e, [.getStreamCtrl format width height fps])
    | none => (some { devh := hdl, ctrl := ctrl }, none,
               [.getStreamCtrl format width height fps])

/-- `Device.Ref`: under the read lock, return at once if the handle is nil,
else call `uvc_ref_device(dev.dev)`.  The device state is never mutated. -/
def Device.Ref (dev : Device) : Device × List NativeCall :=
  match dev.handle with
  | none => (dev, [])
  | some _ => (dev, [.refDevice])

/-- `Device.Unref`: under the read lock, return at once if the handle is nil,
else call `uvc_unref_device(dev.dev)`.  The device state is never mutated. -/
def Device.Unref (dev : Device) : Device × List NativeCall :=
  match dev.handle with
  | none => (dev, [])
  | some _ => (dev, [.unrefDevice])

/-- `Device.Close`: under the write lock, unconditionally call
`uvc_close(dev.handle)` — the log records whether that handle argument was
nil — then set the handle to nil and return nil.  `nativeResult` is whatever
outcome the native teardown reports; the Go code never looks at it. -/
def Device.Close (dev : Device) (_nativeResult : Int) :
    Device × Option UVCError × List NativeCall :=
  ({ dev with handle := none }, none, [.close dev.handle.isNone])

/-- `Device.IsIdle`: true when the handle is nil or its `streams` list is
nil. -/
def Device.IsIdle (dev : Device) : Bool :=
  match dev.handle with
  | none => true
  | some h => !h.streamsPresent

/-- `Device.IsClosed`: true exactly when the handle is nil. -/
def Device.IsClosed (dev : Device) : Bool :=
  dev.handle.isNone

/-!
Lock-scope model for the catalog walk.  `device.go` guards the handle with a
single reader-writer mutex `mu`.  The traces below record, in program order,
the mutex operations a method performs on `mu` and every dereference of
handle-owned native memory (a linked-list node visit).  `Close` takes the
write lock, which the mutex grants only while no read lock is held; so a
native read occurring at read-lock depth 0 is a point at which a
concurrently requested `Close` can already have been granted the write lock,
freed the native tree, and completed.
-/

/-- An event of the catalog walk: acquiring or releasing the device's read
lock, or dereferencing a node of the handle-owned native descriptor tree. -/
inductive Event where
  | rlock
  | runlock
  | nativeRead
  deriving DecidableEq, Repr

/-- Events of `Device.StreamInterfaces`: `mu.RLock()`, one native node read
per streaming-interface node walked (none when the handle is nil), then the
deferred `mu.RUnlock()`. -/
def Device.streamInterfacesEvents (dev : Device) : List Event :=
  [.rlock] ++
    (match dev.handle with
     | none => []
     | some h => h.info.stream_ifs.map fun _ => Event.nativeRead) ++
    [.runlock]

/-- Events of `StreamInterface.FormatDescriptors`: the method takes no lock;
it reads one native node per format descriptor walked through the retained
`itf` pointer. -/
def StreamInterface.formatDescriptorsEvents (i : StreamInterface) : List Event :=
  match i.itf with
  | none => []
  | some itf => itf.format_descs.map fun _ => Event.nativeRead

/-- Events of `FormatDescriptor.FrameDescriptors`: again no lock; one native
node read per frame descriptor walked through the retained `desc` pointer. -/
def FormatDescriptor.frameDescriptorsEvents (d : FormatDescriptor) : List Event :=
  match d.desc with
  | none => []
  | some fd => fd.frame_descs.map fun _ => Event.nativeRead

/-- The event trace of materializing the full capability tree from one
top-level `StreamInterfaces()` query, exactly as the code performs it: the
locked `StreamInterfaces` walk, then — on the returned snapshots, outside
that call — `FormatDescriptors()` per interface and `FrameDescriptors()` per
format. -/
def Device.fullCatalogEvents (dev : Device) : List Event :=
  dev.streamInterfacesEvents ++
    dev.StreamInterfaces.flatMap fun i =>
      i.formatDescriptorsEvents ++
        i.FormatDescriptors.flatMap fun d => d.frameDescriptorsEvents

/-- Whether some native read of the trace happens at read-lock depth 0
(given the starting depth): at such a point the mutex can grant the write
lock to a concurrent `Close`, which then frees the tree and completes before
the remaining reads. -/
def existsUnlockedRead : Nat → List Event → Bool
  | _, [] => false
  | d, .rlock :: es => existsUnlockedRead (d + 1) es
  | d, .runlock :: es => existsUnlockedRead (d - 1) es
  | d, .nativeRead :: es => decide (d = 0) || existsUnlockedRead d es

/-!
Concrete sample data used by witnesses and counterexamples: a device with
one streaming interface carrying one MJPEG format with one discrete-mode
frame descriptor (1920×1080, intervals 333333 and 666666 hundred-ns units).
-/

/-- A discrete-mode native frame descriptor: `bFrameIntervalType = 2` with
two supported intervals. -/
def sampleFrame : NativeFrameDesc :=
  { bDescriptorSubtype := 7
    bFrameIndex := 1
    bmCapabilities := 0
    wWidth := 1920
    wHeight := 1080
    dwMinBitRate := 1000000
    dwMaxBitRate := 5000000
    dwMaxVideoFrameBufferSize := 4147200
    dwDefaultFrameInterval := 333333
    dwMinFrameInterval := 333333
    dwMaxFrameInterval := 666666
    dwFrameIntervalStep := 0
    bFrameIntervalType := 2
    dwBytesPerLine := 0
    intervals := [333333, 666666] }

/-- A native MJPEG format descriptor with `sampleFrame` as its only frame. -/
def sampleFormat : NativeFormatDesc :=
  { bDescriptorSubtype := 6
    bFormatIndex := 1
    bNumFrameDescriptors := 1
    packedByte := 1
    bDefaultFrameIndex := 1
    bAspectRatioX := 16
    bAspectRatioY := 9
    bmInterlaceFlags := 0
    bCopyProtect := 0
    bVariableSize := 0
    frame_descs := [sampleFrame] }

/-- A native streaming interface with `sampleFormat` as its only format. -/
def sampleItf : NativeStreamInterface :=
  { bInterfaceNumber := 1
    bEndpointAddress := 129
    bTerminalLink := 3
    format_descs := [sampleFormat] }

/-- A native control interface. -/
def sampleCtrlIf : NativeControlInterface :=
  { bcdUVC := 272
    bInterfaceNumber := 0
    bEndpointAddress := 131
    dwClockFrequency := 48000000 }

/-- A native handle over the sample tree, with no active streams. -/
def sampleHandle : NativeHandle :=
  { info := { ctrl_if := sampleCtrlIf, stream_ifs := [sampleItf] }
    streamsPresent := false }

/-- A device whose native reference exists and whose handle is open on
`sampleHandle`. -/
def sampleOpenDevice : Device :=
  { devExists := true, handle := some sampleHandle }

/-- A device whose native reference exists but whose handle is absent. -/
def sampleClosedDevice : Device :=
  { devExists := true, handle := none }

/-- C1: refuted on the code (code bug).  Materializing the full capability
tree from one `StreamInterfaces()` query performs native reads of
handle-owned memory at read-lock depth 0: the `FormatDescriptors` and
`FrameDescriptors` walks run after `StreamInterfaces` has released the read
lock, so a concurrent `Close` can be granted the write lock, free the native
tree and complete before the copy finishes.  Only the `StreamInterfaces`
walk itself is continuously lock-protected (second conjunct). -/
theorem C1_lock_not_held_over_child_walks :
    existsUnlockedRead 0 (Device.fullCatalogEvents sampleOpenDevice) = true ∧
    existsUnlockedRead 0 (Device.streamInterfacesEvents sampleOpenDevice) = false := by
  constructor <;> rfl

/-- C2: refuted on the code (code bug).  `Close` on a device whose handle is
already absent still issues the native `uvc_close` call — with a nil handle
argument (`NativeCall.close true` in the log) — before clearing the field:
no defensive guard prevents the native teardown on an absent handle. -/
theorem C2_close_without_guard :
    (sampleClosedDevice.Close 0).2.2 = [NativeCall.close true] ∧
    (sampleClosedDevice.Close 0).1.handle = none := by
  constructor <;> rfl

/-- C3: when the handle is absent, each of `SetAEMode`, `SetAEPriority`,
`SetExposureRelative`, `SetBrightness` returns `ErrDeviceClosed` with an
empty native-call log, and `GetStream` returns no stream, `ErrDeviceClosed`,
and an empty log — regardless of the arguments and of whatever the native
layer would have answered. -/
theorem C3_closed_guards (dev : Device) (h : dev.handle = none)
    (mode priority : Nat) (exposure brightness : Int)
    (r1 r2 r3 r4 : Int) (format width height fps code : Int) (ctrl : StreamCtrl) :
    dev.SetAEMode mode r1 = (some .deviceClosed, []) ∧
    dev.SetAEPriority priority r2 = (some .deviceClosed, []) ∧
    dev.SetExposureRelative exposure r3 = (some .deviceClosed, []) ∧
    dev.SetBrightness brightness r4 = (some .deviceClosed, []) ∧
    dev.GetStream format width height fps code ctrl = (none, some .deviceClosed, []) := by
  simp [Device.SetAEMode, Device.SetAEPriority, Device.SetExposureRelative,
        Device.SetBrightness, Device.GetStream, h]

/-- C3 witness: the guards evaluated on the concrete closed device. -/
theorem C3_closed_guards_witness :
    sampleClosedDevice.handle = none ∧
    (sampleClosedDevice.SetAEMode 2 0 = (some .deviceClosed, []) ∧
     sampleClosedDevice.SetAEPriority 1 0 = (some .deviceClosed, []) ∧
     sampleClosedDevice.SetExposureRelative 5 0 = (some .deviceClosed, []) ∧
     sampleClosedDevice.SetBrightness 100 0 = (some .deviceClosed, []) ∧
     sampleClosedDevice.GetStream 6 1920 1080 30 0 ⟨0⟩ = (none, some .deviceClosed, [])) :=
  ⟨rfl, C3_closed_guards sampleClosedDevice rfl 2 1 5 100 0 0 0 0 6 1920 1080 30 0 ⟨0⟩⟩

/-- C4: `Open` is idempotent and atomic on failure.  If a handle is present,
`Open` returns success with no native call and leaves the device unchanged;
if the handle is absent and the native open fails with a nonzero status, the
device is unchanged (still closed) and the translated error — never `none` —
is returned; if the handle is absent and the native open succeeds, the
device transitions to open on the produced handle. -/
theorem C4_open_idempotent_atomic (dev : Device) (native : NativeOpenResult) :
    (∀ hdl, dev.handle = some hdl → dev.Open native = (dev, none, [])) ∧
    (∀ code, dev.handle = none → native = .fail code → code ≠ 0 →
      dev.Open native = (dev, newError code, [.openDev]) ∧
        (dev.Open native).2.1 ≠ none) ∧
    (∀ h, dev.handle = none → native = .ok h →
      dev.Open native = ({ dev with handle := some h }, none, [.openDev])) := by
  refine ⟨?_, ?_, ?_⟩
  · intro hdl hh
    simp [Device.Open, hh]
  · intro code hh hn hc
    subst hn
    simp [Device.Open, hh, newError, hc]
  · intro h hh hn
    subst hn
    simp [Device.Open, hh]

/-- C4 witness: the three branches evaluated on the concrete devices, with a
native failure status of -1. -/
theorem C4_open_idempotent_atomic_witness :
    sampleOpenDevice.Open (.ok sampleHandle) = (sampleOpenDevice, none, []) ∧
    sampleClosedDevice.Open (.fail (-1)) =
      (sampleClosedDevice, newError (-1), [.openDev]) ∧
    sampleClosedDevice.Open (.ok sampleHandle) =
      ({ sampleClosedDevice with handle := some sampleHandle }, none, [.openDev]) :=
  ⟨(C4_open_idempotent_atomic sampleOpenDevice (.ok sampleHandle)).1 sampleHandle rfl,
   ((C4_open_idempotent_atomic sampleClosedDevice (.fail (-1))).2.1 (-1) rfl rfl
      (by decide)).1,
   (C4_open_idempotent_atomic sampleClosedDevice (.ok sampleHandle)).2.2 sampleHandle
      rfl rfl⟩

/-- C5: `Close`, in any state and whatever the native teardown reports,
leaves the handle absent and returns no error; the returned error does not
depend on the native result (it is discarded). -/
theorem C5_close_always_succeeds (dev : Device) (nativeResult : Int) :
    (dev.Close nativeResult).1.handle = none ∧
    (dev.Close nativeResult).2.1 = none ∧
    ∀ r s : Int, (dev.Close r).2.1 = (dev.Close s).2.1 :=
  ⟨rfl, rfl, fun _ _ => rfl⟩

/-- C6 counterexample: at the concrete sample device the claim as stated is
false: the `StreamInterface` returned by `StreamInterfaces` retains the
borrowed native interface pointer in its `itf` field, the `FormatDescriptor`
and `FrameDescriptor` snapshots retain their borrowed node pointers in
`desc`, and the `Stream` block returned by `GetStream` holds the raw device
handle pointer with no generation token (its only fields are `devh` and
`ctrl`). -/
theorem C6_counterexample :
    sampleOpenDevice.StreamInterfaces.map StreamInterface.itf = [some sampleItf] ∧
    (sampleOpenDevice.StreamInterfaces.flatMap
        StreamInterface.FormatDescriptors).map FormatDescriptor.desc =
      [some sampleFormat] ∧
    ((sampleOpenDevice.StreamInterfaces.flatMap
        StreamInterface.FormatDescriptors).flatMap
          FormatDescriptor.FrameDescriptors).map FrameDescriptor.desc =
      [some sampleFrame] ∧
    (sampleOpenDevice.GetStream 6 1920 1080 30 0 ⟨0⟩).1 =
      some { devh := sampleHandle, ctrl := ⟨0⟩ } := by
  refine ⟨rfl, rfl, rfl, rfl⟩

/-- C6 amended: returned catalog values copy the scalar fields but each also
retains the borrowed native pointer of the node it was built from
(`StreamInterface.itf`, `FormatDescriptor.desc`, `FrameDescriptor.desc`),
used by the later child walks; and the stream block returned by `GetStream`
carries the raw device handle pointer, with no generation token. -/
theorem C6_amended_retention (dev : Device) (hdl : NativeHandle)
    (h : dev.handle = some hdl) (format width height fps : Int) (ctrl : StreamCtrl) :
    dev.StreamInterfaces.map StreamInterface.itf = hdl.info.stream_ifs.map some ∧
    (∀ i : StreamInterface, ∀ itf, i.itf = some itf →
      i.FormatDescriptors.map FormatDescriptor.desc = itf.format_descs.map some) ∧
    (∀ d : FormatDescriptor, ∀ fd, d.desc = some fd →
      d.FrameDescriptors.map FrameDescriptor.desc = fd.frame_descs.map some) ∧
    (dev.GetStream format width height fps 0 ctrl).1 =
      some { devh := hdl, ctrl := ctrl } := by
  refine ⟨?_, ?_, ?_, ?_⟩
  · simp [Device.StreamInterfaces, h, List.map_map]
  · intro i itf hi
    simp [StreamInterface.FormatDescriptors, hi, List.map_map]
  · intro d fd hd
    simp [FormatDescriptor.FrameDescriptors, hd, List.map_map]
  · simp [Device.GetStream, h, newError]

/-- C6 amended witness: the retention evaluated on the concrete open
device. -/
theorem C6_amended_retention_witness :
    sampleOpenDevice.handle = some sampleHandle ∧
    sampleOpenDevice.StreamInterfaces.map StreamInterface.itf = [some sampleItf] ∧
    (sampleOpenDevice.GetStream 6 1920 1080 30 0 ⟨0⟩).1 =
      some { devh := sampleHandle, ctrl := ⟨0⟩ } :=
  ⟨rfl,
   (C6_amended_retention sampleOpenDevice sampleHandle rfl 6 1920 1080 30 ⟨0⟩).1,
   (C6_amended_retention sampleOpenDevice sampleHandle rfl 6 1920 1080 30 ⟨0⟩).2.2.2⟩

/-- C7: refuted on the code (code bug).  At the concrete sample the native
frame descriptor is discrete-mode (`bFrameIntervalType = 2`) with two
supported intervals, yet the `FrameDescriptor` produced by
`FrameDescriptors` carries an empty `Intervals` list — the assignment is
commented out in the source, so the field is never populated. -/
theorem C7_intervals_left_empty :
    sampleFrame.bFrameIntervalType = 2 ∧
    sampleFrame.intervals = [333333, 666666] ∧
    ((sampleOpenDevice.StreamInterfaces.flatMap
        StreamInterface.FormatDescriptors).flatMap
          FormatDescriptor.FrameDescriptors).map FrameDescriptor.FrameIntervalType =
      [2] ∧
    ((sampleOpenDevice.StreamInterfaces.flatMap
        StreamInterface.FormatDescriptors).flatMap
          FormatDescriptor.FrameDescriptors).map FrameDescriptor.Intervals =
      [[]] := by
  refine ⟨rfl, rfl, rfl, rfl⟩

/-- C8: when the handle is absent, `ControlInterface` returns `none` and
`StreamInterfaces` returns the empty list; neither operation can return an
error (their return types carry none). -/
theorem C8_graceful_degrade (dev : Device) (h : dev.handle = none) :
    dev.ControlInterface = none ∧ dev.StreamInterfaces = [] := by
  simp [Device.ControlInterface, Device.StreamInterfaces, h]

/-- C8 witness: the degrade evaluated on the concrete closed device. -/
theorem C8_graceful_degrade_witness :
    sampleClosedDevice.handle = none ∧
    (sampleClosedDevice.ControlInterface = none ∧
     sampleClosedDevice.StreamInterfaces = []) :=
  ⟨rfl, C8_graceful_degrade sampleClosedDevice rfl⟩

/-- C9: every `FormatDescriptor` produced by `FormatDescriptors` carries both
raw interpretations of the packed union byte: `BitsPerPixel` and `Flags`
each equal the native node's packed byte — hence they are equal on every
produced descriptor — and the `Subtype` discriminant is exposed alongside
for the consumer to select the interpretation. -/
theorem C9_both_interpretations (i : StreamInterface) (itf : NativeStreamInterface)
    (h : i.itf = some itf) :
    i.FormatDescriptors.map FormatDescriptor.BitsPerPixel =
      itf.format_descs.map NativeFormatDesc.packedByte ∧
    i.FormatDescriptors.map FormatDescriptor.Flags =
      itf.format_descs.map NativeFormatDesc.packedByte ∧
    i.FormatDescriptors.map FormatDescriptor.Subtype =
      itf.format_descs.map NativeFormatDesc.bDescriptorSubtype ∧
    ∀ fd ∈ i.FormatDescriptors, fd.BitsPerPixel = fd.Flags := by
  refine ⟨?_, ?_, ?_, ?_⟩
  · simp [StreamInterface.FormatDescriptors, h, List.map_map]
  · simp [StreamInterface.FormatDescriptors, h, List.map_map]
  · simp [StreamInterface.FormatDescriptors, h, List.map_map]
  · intro fd hfd
    simp only [StreamInterface.FormatDescriptors, h, List.mem_map] at hfd
    obtain ⟨d, _, rfl⟩ := hfd
    rfl

/-- C9 witness: both interpretations evaluated on a concrete stream
interface holding the sample native node (packed byte 1). -/
theorem C9_both_interpretations_witness :
    (StreamInterface.mk (some sampleItf) 1 129 3).FormatDescriptors.map
        FormatDescriptor.BitsPerPixel = [1] ∧
    (StreamInterface.mk (some sampleItf) 1 129 3).FormatDescriptors.map
        FormatDescriptor.Flags = [1] :=
  ⟨(C9_both_interpretations (StreamInterface.mk (some sampleItf) 1 129 3) sampleItf
      rfl).1,
   (C9_both_interpretations (StreamInterface.mk (some sampleItf) 1 129 3) sampleItf
      rfl).2.1⟩

/-- C10 counterexample: at the concrete closed device whose native reference
exists, `Ref` and `Unref` issue no native refcount call at all — the
adjustment is not independent of the handle state, contrary to the claim. -/
theorem C10_counterexample :
    sampleClosedDevice.devExists = true ∧
    (sampleClosedDevice.Ref).2 = [] ∧
    (sampleClosedDevice.Unref).2 = [] :=
  ⟨rfl, rfl, rfl⟩

/-- C10 amended: `Ref` and `Unref` never mutate the device state, and they
issue the native refcount adjustment on the device reference
(`uvc_ref_device`/`uvc_unref_device` on `dev.dev`) exactly when the handle
is present; when the handle is absent they are no-ops. -/
theorem C10_amended_ref_unref (dev : Device) :
    (dev.Ref).1 = dev ∧ (dev.Unref).1 = dev ∧
    (dev.handle = none → (dev.Ref).2 = [] ∧ (dev.Unref).2 = []) ∧
    (∀ hdl, dev.handle = some hdl →
      (dev.Ref).2 = [.refDevice] ∧ (dev.Unref).2 = [.unrefDevice]) := by
  refine ⟨?_, ?_, ?_, ?_⟩
  · cases hh : dev.handle <;> simp [Device.Ref, hh]
  · cases hh : dev.handle <;> simp [Device.Unref, hh]
  · intro hh
    simp [Device.Ref, Device.Unref, hh]
  · intro hdl hh
    simp [Device.Ref, Device.Unref, hh]

/-- C10 amended witness: on the concrete open device the native calls are
issued. -/
theorem C10_amended_ref_unref_witness :
    sampleOpenDevice.handle = some sampleHandle ∧
    (sampleOpenDevice.Ref).2 = [NativeCall.refDevice] ∧
    (sampleOpenDevice.Unref).2 = [NativeCall.unrefDevice] :=
  ⟨rfl,
   ((C10_amended_ref_unref sampleOpenDevice).2.2.2 sampleHandle rfl).1,
   ((C10_amended_ref_unref sampleOpenDevice).2.2.2 sampleHandle rfl).2⟩

end UVC
